import Mathlib

/-!
Verification of the GeoContext retrieval/caching core against its
natural-language specification.

The development shallowly embeds the Python sources:
  - `geocontext/models/context_service_registry.py`
    (`ContextServiceRegistry.retrieve_context_value`,
     `ContextServiceRegistry.parse_request_value`,
     `ContextServiceRegistry.build_query_url`)
  - `geocontext/models/utilities.py` (`retrieve_context`)
  - `geocontext/serializers/context_group.py`
    (`ContextGroupValue.populate_service_registry_values`)

External collaborators (the HTTP client, the OWS WMS client, coordinate
reprojection and GML geometry parsing, which live outside the embedded
sources) are passed in as an explicit environment record.  Coordinates are
modelled as exact integers: no claim in scope depends on fractional
coordinate arithmetic, and the Python float values play no algorithmic
role beyond being printed into a bounding-box string.
-/

set_option maxRecDepth 40000

/-- The five service protocol kinds of `ContextServiceRegistry.QUERY_TYPES`. -/
inductive QueryType where
  | WFS
  | WCS
  | WMS
  | REST
  | Wikipedia
deriving DecidableEq, Repr

/-- The configuration fields of the `ContextServiceRegistry` Django model that
the embedded methods read.  `time_to_live` is in seconds, `srid` is the
service's native spatial reference id. -/
structure ContextServiceRegistry where
  key : String
  name : String
  url : String
  query_type : QueryType
  result_regex : String
  time_to_live : Nat
  srid : Int
  layer_typename : String
  service_version : String

/-- A GEOS geometry as the embedded code observes it: an optional SRID and a
point-containment test.  The containment algorithm itself is a GEOS library
capability, so it is carried as a function. -/
structure Geom where
  srid : Option Int
  contains : Int → Int → Bool

/-- Modelled from the spec: the `ContextCache` model class
(`geocontext/models/context_cache.py`) is not among the given sources; its
fields follow the spec's CacheEntry data model (descriptor key, name, value,
optional geometry, optional source URI, absolute UTC expiry) plus a numeric
row identity `id` standing for the database primary key that
`cache.delete()` deletes by. -/
structure ContextCache where
  id : Nat
  service_registry : String
  name : String
  value : Option String
  geometry : Option Geom
  source_uri : Option String
  expired_time : Nat

/-- Exceptions the embedded Python code can raise. -/
inductive Err where
  | doesNotExist (key : String)
  | attributeError
  | expatError
  | missingSchema
  | network
deriving DecidableEq, Repr

/-- Raw response payload handed to `parse_request_value`, modelled
semantically: a well-formed XML document is carried together with its root
node, anything else is carried as raw text that `minidom.parseString`
rejects. -/
inductive XmlNode where
  | element (tag : String) (children : List XmlNode)
  | text (s : String)

/-- Response content: either well-formed XML (with its root element) or a
payload on which XML parsing fails. -/
inductive ResponseContent where
  | xml (root : XmlNode)
  | raw (s : String)

/-- True when character `c` occurs in `s`; stands for Python's
`c in s` membership test on strings. -/
def str_has_char (s : String) (c : Char) : Bool :=
  s.data.contains c

/-- Characters left unescaped by Python's `urllib.quote_plus`
(letters, digits, `_`, `.`, `-`). -/
def url_safe_char (c : Char) : Bool :=
  c.isAlphanum || c == '_' || c == '.' || c == '-'

/-- Upper-case hexadecimal digit for a value below 16. -/
def hex_digit (n : Nat) : Char :=
  if n < 10 then Char.ofNat (48 + n) else Char.ofNat (55 + n)

/-- Percent-escape one character the way `urllib.quote_plus` does: space
becomes `+`, safe characters stay, anything else becomes `%XX` with the
upper-case hex code of the byte. -/
def quote_plus_char (c : Char) : String :=
  if c == ' ' then "+"
  else if url_safe_char c then String.singleton c
  else "%" ++ String.singleton (hex_digit (c.toNat / 16 % 16))
           ++ String.singleton (hex_digit (c.toNat % 16))

/-- Python's `urllib.quote_plus` on an ASCII string, as used by Django's
`QueryDict.urlencode`. -/
def quote_plus (s : String) : String :=
  String.join (s.data.map quote_plus_char)

/-- Python's `'&'.join`. -/
def join_amp : List String → String
  | [] => ""
  | [p] => p
  | p :: q :: rest => p ++ ("&" ++ join_amp (q :: rest))

/-- Django's `QueryDict.urlencode` over the parameter dictionary: each
key/value pair is escaped with `quote_plus` and the pairs are joined
with `&`. -/
def urlencode (params : List (String × String)) : String :=
  join_amp (params.map (fun kv => quote_plus kv.1 ++ ("=" ++ quote_plus kv.2)))

/-- Modelled from the spec: `get_bbox` lives in the missing
`geocontext/utilities.py`; per the spec it computes a bounding box around
the (possibly reprojected) point using a fixed half-width/half-height
margin, here one coordinate unit: `[xmin, ymin, xmax, ymax]`. -/
def get_bbox (x y : Int) : List Int :=
  [x - 1, y - 1, x + 1, y + 1]

/-- The comma-joined bounding-box string
(`','.join([str(i) for i in bbox])`). -/
def bbox_string (x y : Int) : String :=
  ",".intercalate ((get_bbox x y).map Int.repr)

/-- The WFS parameter dictionary of `build_query_url`, in source order:
SERVICE, REQUEST, VERSION, TYPENAME, OUTPUTFORMAT. -/
def wfs_parameters (sr : ContextServiceRegistry) : List (String × String) :=
  [("SERVICE", "WFS"),
   ("REQUEST", "GetFeature"),
   ("VERSION", sr.service_version),
   ("TYPENAME", sr.layer_typename),
   ("OUTPUTFORMAT", "GML3")]

/-- The point `build_query_url` works with: reprojected into the
registry's SRID by the external `convert_coordinate` collaborator when the
SRIDs differ, unchanged otherwise. -/
def wfs_query_xy (conv : Int → Int → Int → Int → Int × Int)
    (sr : ContextServiceRegistry) (x y : Int) (srid : Int) : Int × Int :=
  if srid ≠ sr.srid then conv x y srid sr.srid else (x, y)

/-- `ContextServiceRegistry.build_query_url`: for a WFS registry, reproject
the point into the registry's SRID when needed, compute the bbox, urlencode
the WFS parameters onto the base URL (joining with `&` when the base URL
already holds a `?`, with `?` otherwise), append `SRSNAME` only when the
layer typename carries no `:` workspace prefix, and finally append the
`BBOX` term.  Non-WFS query types fall off the end of the Python method and
yield `None`.  `conv` is the external `convert_coordinate` collaborator. -/
def build_query_url (conv : Int → Int → Int → Int → Int × Int)
    (sr : ContextServiceRegistry) (x y : Int) (srid : Int) : Option String :=
  if sr.query_type = QueryType.WFS then
    let xy := wfs_query_xy conv sr x y srid
    let url :=
      if str_has_char sr.url '?' then
        sr.url ++ ("&" ++ urlencode (wfs_parameters sr))
      else
        sr.url ++ ("?" ++ urlencode (wfs_parameters sr))
    let url :=
      if str_has_char sr.layer_typename ':' then url
      else url ++ ("&SRSNAME=" ++ Int.repr sr.srid)
    some (url ++ ("&BBOX=" ++ bbox_string xy.1 xy.2))
  else
    none

mutual

/-- `minidom`'s `getElementsByTagName` search over one node in document
order: the node itself is emitted when it is an element with the matching
tag, then its descendants are searched. -/
def getElementsInNode (tag : String) : XmlNode → List XmlNode
  | XmlNode.text _ => []
  | XmlNode.element t cs =>
      (if t = tag then [XmlNode.element t cs] else []) ++ getElementsInList tag cs

/-- `minidom`'s `getElementsByTagName` search over a sibling list in
document order. -/
def getElementsInList (tag : String) : List XmlNode → List XmlNode
  | [] => []
  | c :: rest => getElementsInNode tag c ++ getElementsInList tag rest

end

/-- `Document.getElementsByTagName` where the document's only child is the
root element. -/
def getElementsByTagName (tag : String) (root : XmlNode) : List XmlNode :=
  getElementsInNode tag root

/-- `node.childNodes`. -/
def childNodes : XmlNode → List XmlNode
  | XmlNode.element _ cs => cs
  | XmlNode.text _ => []

/-- `node.nodeValue`: the text of a text node, `None` for an element node. -/
def nodeValue : XmlNode → Option String
  | XmlNode.text s => some s
  | XmlNode.element _ _ => none

/-- `xml.dom.minidom.parseString` as the embedded code observes it: a
well-formed document yields its DOM, any other payload raises
`ExpatError`. -/
def minidom_parseString : ResponseContent → Except Err XmlNode
  | ResponseContent.xml root => Except.ok root
  | ResponseContent.raw _ => Except.error Err.expatError

/-- `ContextServiceRegistry.parse_request_value`: for WFS and WMS
registries, parse the payload as XML (`parseString` sits outside the
`try`, so a malformed payload raises), then return the first child node's
`nodeValue` of the first element named `result_regex`; an `IndexError`
(no such element, or an element with no children) is caught and yields
`None`.  Every other query type falls through the `if` and yields
`None`. -/
def parse_request_value (sr : ContextServiceRegistry) (request_content : ResponseContent) :
    Except Err (Option String) :=
  if sr.query_type = QueryType.WFS ∨ sr.query_type = QueryType.WMS then
    match minidom_parseString request_content with
    | Except.error e => Except.error e
    | Except.ok xmldoc =>
      match getElementsByTagName sr.result_regex xmldoc with
      | [] => Except.ok none
      | value_dom :: _ =>
        match childNodes value_dom with
        | [] => Except.ok none
        | c :: _ => Except.ok (nodeValue c)
  else
    Except.ok none

/-- Mutable world the resolver threads through: the cache table, a fresh
primary key for the next saved row, and a count of upstream network calls
issued (one per WMS `getfeatureinfo` or HTTP `GET`). -/
structure State where
  caches : List ContextCache
  nextId : Nat
  networkCalls : Nat

/-- The external collaborators of the core, per spec section 6: the
descriptor registry table, `convert_coordinate`, the OWS WMS client
(returning the response payload and its resolved `geturl()`), the HTTP
client, and `parse_gml_geometry` from the missing
`geocontext/utilities.py` (payload and optional workspace prefix in,
optional geometry out). -/
structure Env where
  registries : List ContextServiceRegistry
  convert_coordinate : Int → Int → Int → Int → Int × Int
  wms_getfeatureinfo : ContextServiceRegistry → Int → Int → Int →
    Except Err (ResponseContent × String)
  http_get : String → Except Err ResponseContent
  parse_gml_geometry : ResponseContent → Option String → Option Geom

/-- The workspace prefix `self.layer_typename.split(':')[0]`. -/
def workspace_part (s : String) : String :=
  String.mk (s.data.takeWhile (fun c => !(c == ':')))

/-- The argument `parse_gml_geometry` receives in
`retrieve_context_value`: the workspace prefix when the layer typename
carries one, nothing otherwise. -/
def gml_workspace_arg (sr : ContextServiceRegistry) : Option String :=
  if str_has_char sr.layer_typename ':' then some (workspace_part sr.layer_typename)
  else none

/-- Saving the freshly fetched result
(`ContextCache(...)`, `source_uri`/`set_geometry_field` conditionals,
`save()`): the new row's expiry is `utcnow() + time_to_live`, its
`source_uri` is the resolved URL when that is non-empty, and the geometry
is attached only when one was produced. -/
def save_context_cache (now : Nat) (sr : ContextServiceRegistry)
    (value : Option String) (geometry : Option Geom) (url : String)
    (st : State) : ContextCache × State :=
  let entry : ContextCache :=
    { id := st.nextId
      service_registry := sr.key
      name := sr.key
      value := value
      geometry := geometry
      source_uri := if url = "" then none else some url
      expired_time := now + sr.time_to_live }
  (entry, { st with caches := st.caches ++ [entry], nextId := st.nextId + 1 })

/-- `ContextServiceRegistry.retrieve_context_value`.  WMS: issue a
`getfeatureinfo` call, parse the value, keep no geometry, and save.  Every
other query type: build the query URL (`None` for non-WFS types, on which
`requests.get(None)` raises), issue an HTTP GET, parse the GML geometry
(scoped to the workspace prefix when the layer typename has one), return
`None` outright when no geometry was parsed, give a geometry carrying no
SRID (or SRID 0, which is falsy in Python) the registry's configured SRID,
parse the value, and save.  The network-call counter is bumped exactly when
the WMS call or the HTTP GET is issued. -/
def retrieve_context_value (env : Env) (now : Nat) (sr : ContextServiceRegistry)
    (x y : Int) (srid : Int) (st : State) : Except Err (Option ContextCache) × State :=
  if sr.query_type = QueryType.WMS then
    let st := { st with networkCalls := st.networkCalls + 1 }
    match env.wms_getfeatureinfo sr x y srid with
    | Except.error e => (Except.error e, st)
    | Except.ok (content, resolved_url) =>
      match parse_request_value sr content with
      | Except.error e => (Except.error e, st)
      | Except.ok value =>
        let (entry, st) := save_context_cache now sr value none resolved_url st
        (Except.ok (some entry), st)
  else
    match build_query_url env.convert_coordinate sr x y srid with
    | none => (Except.error Err.missingSchema, st)
    | some url =>
      let st := { st with networkCalls := st.networkCalls + 1 }
      match env.http_get url with
      | Except.error e => (Except.error e, st)
      | Except.ok content =>
        match env.parse_gml_geometry content (gml_workspace_arg sr) with
        | none => (Except.ok none, st)
        | some geometry =>
          let geometry :=
            if geometry.srid.getD 0 = 0 then { geometry with srid := some sr.srid }
            else geometry
          match parse_request_value sr content with
          | Except.error e => (Except.error e, st)
          | Except.ok value =>
            let (entry, st) := save_context_cache now sr value (some geometry) url st
            (Except.ok (some entry), st)

/-- Outcome of the cache scan loop in `retrieve_context`. -/
inductive ScanOutcome where
  | hit (c : ContextCache)
  | expired (c : ContextCache)
  | miss

/-- The `for cache in caches` loop of `retrieve_context`: the first entry
whose geometry contains the point is a hit when still live, otherwise the
loop deletes it and breaks; an entry without a geometry raises
`AttributeError` on `cache.geometry.contains(point)`; when no entry
contains the point the scan is a miss. -/
def scan_caches (px py : Int) (now : Nat) : List ContextCache → Except Err ScanOutcome
  | [] => Except.ok ScanOutcome.miss
  | c :: rest =>
    match c.geometry with
    | none => Except.error Err.attributeError
    | some g =>
      if g.contains px py then
        if now < c.expired_time then Except.ok (ScanOutcome.hit c)
        else Except.ok (ScanOutcome.expired c)
      else scan_caches px py now rest

/-- `retrieve_context` from `geocontext/models/utilities.py`: reproject the
point to SRID 4326 when needed, look the registry up by key
(`objects.get` raises when absent), scan that registry's cache entries for
containment, return a live containing entry directly, delete an expired
containing entry (by row identity) and stop scanning, and on any miss fall
through to `retrieve_context_value`. -/
def retrieve_context (env : Env) (now : Nat) (x y : Int)
    (service_registry_key : String) (srid : Int) (st : State) :
    Except Err (Option ContextCache) × State :=
  let point := if srid ≠ 4326 then env.convert_coordinate x y srid 4326 else (x, y)
  match env.registries.find? (fun r => r.key == service_registry_key) with
  | none => (Except.error (Err.doesNotExist service_registry_key), st)
  | some service_registry =>
    let caches := st.caches.filter (fun c => c.service_registry == service_registry.key)
    match scan_caches point.1 point.2 now caches with
    | Except.error e => (Except.error e, st)
    | Except.ok (ScanOutcome.hit c) => (Except.ok (some c), st)
    | Except.ok (ScanOutcome.expired c) =>
      retrieve_context_value env now service_registry x y srid
        { st with caches := st.caches.filter (fun d => !(d.id == c.id)) }
    | Except.ok ScanOutcome.miss =>
      retrieve_context_value env now service_registry x y srid st

/-- `ContextGroupValue.populate_service_registry_values`: iterate the
group's registry keys in order, call `retrieve_context` for each, and
append each result; there is no exception handling, so a raising
resolution aborts the remaining keys. -/
def populate_service_registry_values (env : Env) (now : Nat) (x y : Int)
    (keys : List String) (srid : Int) (st : State) :
    Except Err (List (Option ContextCache)) × State :=
  match keys with
  | [] => (Except.ok [], st)
  | k :: ks =>
    match retrieve_context env now x y k srid st with
    | (Except.error e, st') => (Except.error e, st')
    | (Except.ok v, st') =>
      match populate_service_registry_values env now x y ks srid st' with
      | (Except.error e, st'') => (Except.error e, st'')
      | (Except.ok vs, st'') => (Except.ok (v :: vs), st'')

mutual

/-- Spec-side predicate: does this node, or any element below it, carry
exactly the given tag name? -/
def xml_node_has_tag (tag : String) : XmlNode → Bool
  | XmlNode.text _ => false
  | XmlNode.element t cs => t == tag || xml_list_has_tag tag cs

/-- Spec-side predicate over a sibling list. -/
def xml_list_has_tag (tag : String) : List XmlNode → Bool
  | [] => false
  | c :: rest => xml_node_has_tag tag c || xml_list_has_tag tag rest

end

/-- Spec-side predicate: some element of the document carries the tag. -/
def xml_has_tag (tag : String) (root : XmlNode) : Bool :=
  xml_node_has_tag tag root

/-- `n` occurs as a contiguous substring of `h`. -/
def strIn (n h : String) : Prop :=
  n.data <:+: h.data

instance (n h : String) : Decidable (strIn n h) :=
  inferInstanceAs (Decidable (n.data <:+: h.data))

/-- An identity coordinate conversion used by the concrete test
environments (all test points already live in the target SRID). -/
def convId : Int → Int → Int → Int → Int × Int := fun a b _ _ => (a, b)

/-- A coverage geometry containing every point, with SRID 4326. -/
def gAll : Geom := { srid := some 4326, contains := fun _ _ => true }

/-- A parsed GML geometry carrying no SRID. -/
def gNoSrid : Geom := { srid := none, contains := fun _ _ => true }

/-- A WFS registry whose layer typename carries a `ns:` workspace prefix. -/
def srNs : ContextServiceRegistry :=
  { key := "k", name := "ns service", url := "http://svc/wfs",
    query_type := QueryType.WFS, result_regex := "v", time_to_live := 100,
    srid := 4326, layer_typename := "ns:layer", service_version := "2.0.0" }

/-- A WFS registry with an unprefixed layer typename. -/
def srPlain : ContextServiceRegistry :=
  { key := "p", name := "plain service", url := "http://svc/wfs",
    query_type := QueryType.WFS, result_regex := "v", time_to_live := 100,
    srid := 3857, layer_typename := "layer", service_version := "1.0.0" }

/-- A WFS registry whose base URL already carries a query string. -/
def srQm : ContextServiceRegistry :=
  { key := "q", name := "qm service", url := "http://svc/wfs?map=a",
    query_type := QueryType.WFS, result_regex := "v", time_to_live := 100,
    srid := 4326, layer_typename := "ns:layer", service_version := "2.0.0" }

/-- A WMS registry. -/
def srWms : ContextServiceRegistry :=
  { key := "wms", name := "wms service", url := "http://svc/wms",
    query_type := QueryType.WMS, result_regex := "v", time_to_live := 100,
    srid := 4326, layer_typename := "wmslayer", service_version := "1.1.1" }

/-- A REST registry whose `result_regex` holds a genuine regular
expression, per that field's help text. -/
def srRest : ContextServiceRegistry :=
  { key := "rest", name := "rest service", url := "http://svc/rest",
    query_type := QueryType.REST, result_regex := "temperature=([0-9]+)",
    time_to_live := 100, srid := 4326, layer_typename := "restlayer",
    service_version := "1.0" }

/-- A cache entry with no geometry, exactly the shape a WMS resolution
stores. -/
def ceNoGeom : ContextCache :=
  { id := 1, service_registry := "k", name := "k", value := some "w",
    geometry := none, source_uri := some "http://svc/wms?prev",
    expired_time := 1000 }

/-- A live cache entry whose geometry contains every point. -/
def ceHit : ContextCache :=
  { id := 2, service_registry := "k", name := "k", value := some "42",
    geometry := some gAll, source_uri := some "http://svc/prev",
    expired_time := 1000 }

/-- An expired cache entry whose geometry contains every point
(`expired_time = 3`, while the tests run at `now = 5`). -/
def ceExpired : ContextCache :=
  { id := 3, service_registry := "k", name := "k", value := some "41",
    geometry := some gAll, source_uri := some "http://svc/prev",
    expired_time := 3 }

/-- An environment whose only registry is `srNs` and whose collaborators
are never consulted successfully. -/
def envK : Env :=
  { registries := [srNs], convert_coordinate := convId,
    wms_getfeatureinfo := fun _ _ _ _ => Except.error Err.network,
    http_get := fun _ => Except.error Err.network,
    parse_gml_geometry := fun _ _ => none }

/-- The empty starting state. -/
def stEmpty : State := { caches := [], nextId := 0, networkCalls := 0 }

/-- A state holding a geometry-less entry in front of a live containing
entry for registry `k`. -/
def stNoGeomFirst : State :=
  { caches := [ceNoGeom, ceHit], nextId := 10, networkCalls := 0 }

/-- A state holding only the live containing entry for registry `k`. -/
def stHit : State := { caches := [ceHit], nextId := 10, networkCalls := 0 }

/-- A state holding a geometry-less entry in front of an expired
containing entry for registry `k`. -/
def stNoGeomExpired : State :=
  { caches := [ceNoGeom, ceExpired], nextId := 10, networkCalls := 0 }

/-- A state holding only the expired containing entry for registry `k`. -/
def stExpired : State := { caches := [ceExpired], nextId := 10, networkCalls := 0 }

/-- An XML payload carrying no element named `v`. -/
def contentPlain : ResponseContent := ResponseContent.xml (XmlNode.element "r" [])

/-- An XML payload whose `v` element carries the text value `42`. -/
def contentV : ResponseContent :=
  ResponseContent.xml (XmlNode.element "v" [XmlNode.text "42"])

/-- A document with elements `root` and `w` but no element `v`. -/
def docNoV : XmlNode :=
  XmlNode.element "root" [XmlNode.element "w" [XmlNode.text "1"]]

/-- Environment for the WMS round trip: the `getfeatureinfo` collaborator
answers with `contentPlain` and a resolved URL. -/
def envWms : Env :=
  { registries := [srWms], convert_coordinate := convId,
    wms_getfeatureinfo := fun _ _ _ _ =>
      Except.ok (contentPlain, "http://svc/wms?resolved"),
    http_get := fun _ => Except.error Err.network,
    parse_gml_geometry := fun _ _ => none }

/-- The cache entry the WMS round trip at `now = 5` stores: no geometry. -/
def wmsEntry : ContextCache :=
  { id := 0, service_registry := "wms", name := "wms", value := none,
    geometry := none, source_uri := some "http://svc/wms?resolved",
    expired_time := 105 }

/-- The state after the WMS round trip from `stEmpty`. -/
def stWmsAfter : State := { caches := [wmsEntry], nextId := 1, networkCalls := 1 }

/-- A live containing cache entry for registry `a`. -/
def ceA : ContextCache :=
  { id := 4, service_registry := "a", name := "a", value := some "va",
    geometry := some gAll, source_uri := none, expired_time := 1000 }

/-- A live containing cache entry for registry `c`. -/
def ceC : ContextCache :=
  { id := 5, service_registry := "c", name := "c", value := some "vc",
    geometry := some gAll, source_uri := none, expired_time := 1000 }

/-- Group-member registry `a`. -/
def srA : ContextServiceRegistry :=
  { key := "a", name := "a service", url := "http://a/wfs",
    query_type := QueryType.WFS, result_regex := "v", time_to_live := 100,
    srid := 4326, layer_typename := "la", service_version := "2.0.0" }

/-- Group-member registry `b`, resolved over the network. -/
def srB : ContextServiceRegistry :=
  { key := "b", name := "b service", url := "http://b/wfs",
    query_type := QueryType.WFS, result_regex := "v", time_to_live := 100,
    srid := 4326, layer_typename := "lb", service_version := "2.0.0" }

/-- Group-member registry `c`. -/
def srC : ContextServiceRegistry :=
  { key := "c", name := "c service", url := "http://c/wfs",
    query_type := QueryType.WFS, result_regex := "v", time_to_live := 100,
    srid := 4326, layer_typename := "lc", service_version := "2.0.0" }

/-- Environment for group resolution: all three registries present, HTTP
answers with a payload from which no geometry can be parsed. -/
def envGroup : Env :=
  { registries := [srA, srB, srC], convert_coordinate := convId,
    wms_getfeatureinfo := fun _ _ _ _ => Except.error Err.network,
    http_get := fun _ => Except.ok contentPlain,
    parse_gml_geometry := fun _ _ => none }

/-- Environment for group resolution in which registry `b` is absent. -/
def envGroupMissing : Env :=
  { registries := [srA, srC], convert_coordinate := convId,
    wms_getfeatureinfo := fun _ _ _ _ => Except.error Err.network,
    http_get := fun _ => Except.ok contentPlain,
    parse_gml_geometry := fun _ _ => none }

/-- Starting state for group resolution: live containing entries for `a`
and `c`, none for `b`. -/
def stGroup : State := { caches := [ceA, ceC], nextId := 20, networkCalls := 0 }

/-- The group state after key `b` was fetched over the network. -/
def stGroupAfter : State := { caches := [ceA, ceC], nextId := 20, networkCalls := 1 }

/-- Environment for WFS resolution whose HTTP answer carries a value but
no parseable geometry. -/
def envNoGml : Env :=
  { registries := [srPlain], convert_coordinate := convId,
    wms_getfeatureinfo := fun _ _ _ _ => Except.error Err.network,
    http_get := fun _ => Except.ok contentV,
    parse_gml_geometry := fun _ _ => none }

/-- Environment for WFS resolution whose HTTP answer carries a value and a
geometry with no SRID. -/
def envGml : Env :=
  { registries := [srPlain], convert_coordinate := convId,
    wms_getfeatureinfo := fun _ _ _ _ => Except.error Err.network,
    http_get := fun _ => Except.ok contentV,
    parse_gml_geometry := fun _ _ => some gNoSrid }

/-- The query URL `build_query_url` produces for `srPlain` at `(10, 20)`. -/
def uPlain : String := (build_query_url convId srPlain 10 20 4326).getD ""

/-- Environment for REST resolution: HTTP answers a plain-text payload. -/
def envRest : Env :=
  { registries := [srRest], convert_coordinate := convId,
    wms_getfeatureinfo := fun _ _ _ _ => Except.error Err.network,
    http_get := fun _ => Except.ok (ResponseContent.raw "temperature=25"),
    parse_gml_geometry := fun _ _ => none }

/-- Entries whose geometry does not contain the point are skipped by the
scan loop. -/
theorem scan_caches_skip (px py : Int) (now : Nat) (pre l : List ContextCache)
    (hpre : ∀ c ∈ pre, ∃ g, c.geometry = some g ∧ g.contains px py = false) :
    scan_caches px py now (pre ++ l) = scan_caches px py now l := by
  induction pre with
  | nil => rfl
  | cons c cs ih =>
    obtain ⟨g, hg, hc⟩ := hpre c (by simp)
    simp only [List.cons_append, scan_caches, hg, hc, Bool.false_eq_true, if_false]
    exact ih (fun d hd => hpre d (by simp [hd]))

/-- C1 (amended): when the registry key resolves, every cache entry
scanned before the containing one has a geometry that does not contain the
point, and the containing entry is live, `retrieve_context` returns that
entry directly and leaves the state — cache table and network-call count —
untouched, so `retrieve_context_value` is not invoked. -/
theorem c1_cache_hit_returns_cached_no_network (env : Env) (now : Nat)
    (x y : Int) (key : String) (st : State) (sr : ContextServiceRegistry)
    (pre post : List ContextCache) (e : ContextCache) (g : Geom)
    (hfind : env.registries.find? (fun r => r.key == key) = some sr)
    (hsplit : st.caches.filter (fun c => c.service_registry == sr.key)
      = pre ++ e :: post)
    (hpre : ∀ c ∈ pre, ∃ gc, c.geometry = some gc ∧ gc.contains x y = false)
    (hg : e.geometry = some g) (hcont : g.contains x y = true)
    (hlive : now < e.expired_time) :
    retrieve_context env now x y key 4326 st = (Except.ok (some e), st) := by
  simp only [retrieve_context, hfind]
  rw [if_neg (by norm_num : ¬ (4326 : Int) ≠ 4326)]
  rw [hsplit, scan_caches_skip x y now pre (e :: post) hpre]
  simp [scan_caches, hg, hcont, hlive]

/-- C1 counterexample: the cache holds a live containing entry (`ceHit`)
for the requested key, yet `retrieve_context` raises `AttributeError`
instead of returning it, because a geometry-less entry is scanned first. -/
theorem c1_counterexample :
    retrieve_context envK 5 10 20 "k" 4326 stNoGeomFirst
        = (Except.error Err.attributeError, stNoGeomFirst)
      ∧ ceHit ∈ stNoGeomFirst.caches
      ∧ ceHit.service_registry = "k"
      ∧ ceHit.geometry = some gAll
      ∧ gAll.contains 10 20 = true
      ∧ 5 < ceHit.expired_time := by
  refine ⟨rfl, by simp [stNoGeomFirst], rfl, rfl, rfl, by norm_num [ceHit]⟩

/-- C1 witness: the amended theorem applied to the concrete one-entry
cache `stHit`. -/
theorem c1_witness :
    retrieve_context envK 5 10 20 "k" 4326 stHit = (Except.ok (some ceHit), stHit) :=
  c1_cache_hit_returns_cached_no_network envK 5 10 20 "k" stHit srNs [] [] ceHit gAll
    rfl rfl (by simp) rfl rfl (by norm_num [ceHit])

/-- C2 (amended): when the registry key resolves, every entry scanned
before the containing one has a geometry not containing the point, and the
containing entry is expired, `retrieve_context` deletes exactly that entry
(by row identity) without touching the rest of the scan, and proceeds to a
fresh `retrieve_context_value` fetch on the reduced cache — so the expired
entry is never returned as a hit. -/
theorem c2_expired_entry_deleted_then_refetched (env : Env) (now : Nat)
    (x y : Int) (key : String) (st : State) (sr : ContextServiceRegistry)
    (pre post : List ContextCache) (e : ContextCache) (g : Geom)
    (hfind : env.registries.find? (fun r => r.key == key) = some sr)
    (hsplit : st.caches.filter (fun c => c.service_registry == sr.key)
      = pre ++ e :: post)
    (hpre : ∀ c ∈ pre, ∃ gc, c.geometry = some gc ∧ gc.contains x y = false)
    (hg : e.geometry = some g) (hcont : g.contains x y = true)
    (hexp : ¬ now < e.expired_time) :
    retrieve_context env now x y key 4326 st
        = retrieve_context_value env now sr x y 4326
            { st with caches := st.caches.filter (fun d => !(d.id == e.id)) }
      ∧ (∀ d ∈ st.caches.filter (fun d => !(d.id == e.id)), d.id ≠ e.id)
      ∧ (∀ d ∈ st.caches, d.id ≠ e.id
          → d ∈ st.caches.filter (fun d => !(d.id == e.id))) := by
  refine ⟨?_, ?_, ?_⟩
  · simp only [retrieve_context, hfind]
    rw [if_neg (by norm_num : ¬ (4326 : Int) ≠ 4326)]
    rw [hsplit, scan_caches_skip x y now pre (e :: post) hpre]
    simp [scan_caches, hg, hcont, hexp]
  · intro d hd
    simp only [List.mem_filter, Bool.not_eq_eq_eq_not, Bool.not_true, beq_eq_false_iff_ne,
      ne_eq] at hd
    exact hd.2
  · intro d hd hne
    simp only [List.mem_filter, Bool.not_eq_eq_eq_not, Bool.not_true, beq_eq_false_iff_ne,
      ne_eq]
    exact ⟨hd, hne⟩

/-- C2 counterexample: the expired containing entry `ceExpired` is present
for the requested key, yet `retrieve_context` raises `AttributeError`
before deleting it or issuing a fresh fetch, because a geometry-less entry
is scanned first: the state (cache table and network-call count) is
returned unchanged. -/
theorem c2_counterexample :
    retrieve_context envK 5 10 20 "k" 4326 stNoGeomExpired
        = (Except.error Err.attributeError, stNoGeomExpired)
      ∧ ceExpired ∈ stNoGeomExpired.caches
      ∧ ceExpired.expired_time < 5
      ∧ ceExpired.geometry = some gAll
      ∧ gAll.contains 10 20 = true
      ∧ (retrieve_context envK 5 10 20 "k" 4326 stNoGeomExpired).2.networkCalls = 0 := by
  refine ⟨rfl, by simp [stNoGeomExpired], by norm_num [ceExpired], rfl, rfl, rfl⟩

/-- C2 witness: the amended theorem applied to the concrete one-entry
cache `stExpired`. -/
theorem c2_witness :
    retrieve_context envK 5 10 20 "k" 4326 stExpired
      = retrieve_context_value envK 5 srNs 10 20 4326
          { stExpired with
            caches := stExpired.caches.filter (fun d => !(d.id == ceExpired.id)) } :=
  (c2_expired_entry_deleted_then_refetched envK 5 10 20 "k" stExpired srNs [] []
    ceExpired gAll rfl rfl (by simp) rfl rfl (by norm_num [ceExpired])).1

/-- C4: a WMS resolution stores a cache entry with no geometry, and the
very next `retrieve_context` lookup for that registry crashes with
`AttributeError` on `cache.geometry.contains(point)` instead of treating
the geometry-less entry as an always-re-fetch placeholder. -/
theorem c4_wms_geometryless_entry_crashes_scan :
    retrieve_context_value envWms 5 srWms 10 20 4326 stEmpty
        = (Except.ok (some wmsEntry), stWmsAfter)
      ∧ wmsEntry.geometry = none
      ∧ retrieve_context envWms 5 10 20 "wms" 4326 stWmsAfter
        = (Except.error Err.attributeError, stWmsAfter) :=
  ⟨by rfl, rfl, by rfl⟩

/-- C3 (amended): when each of three keys resolves without raising — the
middle one failing softly by yielding no result (`None`) — group
resolution collects one entry per key in order, the failed one marked by
`None`. -/
theorem c3_group_collects_each_key (env : Env) (now : Nat) (x y srid : Int)
    (k1 k2 k3 : String) (st st1 st2 st3 : State) (c1 c3 : ContextCache)
    (h1 : retrieve_context env now x y k1 srid st = (Except.ok (some c1), st1))
    (h2 : retrieve_context env now x y k2 srid st1 = (Except.ok none, st2))
    (h3 : retrieve_context env now x y k3 srid st2 = (Except.ok (some c3), st3)) :
    populate_service_registry_values env now x y [k1, k2, k3] srid st
      = (Except.ok [some c1, none, some c3], st3) := by
  simp [populate_service_registry_values, h1, h2, h3]

/-- C3 counterexample: with three ordered keys of which the middle one
raises (its registry is absent), group resolution aborts with that
exception instead of collecting three entries — even though the third key
on its own resolves fine from the same state. -/
theorem c3_counterexample :
    populate_service_registry_values envGroupMissing 5 10 20 ["a", "b", "c"] 4326 stGroup
        = (Except.error (Err.doesNotExist "b"), stGroup)
      ∧ retrieve_context envGroupMissing 5 10 20 "c" 4326 stGroup
        = (Except.ok (some ceC), stGroup) := by
  exact ⟨by rfl, by rfl⟩

/-- C3 witness: the amended theorem applied to the concrete group
(`a` and `c` hit the cache, `b` fetches and yields `None`). -/
theorem c3_witness :
    populate_service_registry_values envGroup 5 10 20 ["a", "b", "c"] 4326 stGroup
      = (Except.ok [some ceA, none, some ceC], stGroupAfter) :=
  c3_group_collects_each_key envGroup 5 10 20 4326 "a" "b" "c"
    stGroup stGroup stGroupAfter stGroupAfter ceA ceC (by rfl) (by rfl) (by rfl)

mutual

/-- A node in which no element carries the tag contributes nothing to the
`getElementsByTagName` search. -/
theorem getElementsInNode_eq_nil (tag : String) :
    ∀ n : XmlNode, xml_node_has_tag tag n = false → getElementsInNode tag n = []
  | XmlNode.text _, _ => rfl
  | XmlNode.element t cs, h => by
      have h' : (t == tag) = false ∧ xml_list_has_tag tag cs = false := by
        simpa [xml_node_has_tag] using h
      have ht : ¬ t = tag := by simpa using h'.1
      simp [getElementsInNode, ht, getElementsInList_eq_nil tag cs h'.2]

/-- A sibling list in which no element carries the tag contributes nothing
to the `getElementsByTagName` search. -/
theorem getElementsInList_eq_nil (tag : String) :
    ∀ l : List XmlNode, xml_list_has_tag tag l = false → getElementsInList tag l = []
  | [], _ => rfl
  | c :: rest, h => by
      have h' : xml_node_has_tag tag c = false ∧ xml_list_has_tag tag rest = false := by
        simpa [xml_list_has_tag] using h
      simp [getElementsInList, getElementsInNode_eq_nil tag c h'.1,
        getElementsInList_eq_nil tag rest h'.2]

end

/-- C7: for a WFS or WMS registry, a well-formed XML payload in which no
element's tag name equals the extraction rule parses to the empty value
`None` without raising, while any payload that is not well-formed XML
raises the malformed-response error (`ExpatError`). -/
theorem c7_absent_tag_empty_malformed_raises (sr : ContextServiceRegistry)
    (hq : sr.query_type = QueryType.WFS ∨ sr.query_type = QueryType.WMS) :
    (∀ root : XmlNode, xml_has_tag sr.result_regex root = false →
        parse_request_value sr (ResponseContent.xml root) = Except.ok none)
    ∧ ∀ s : String,
        parse_request_value sr (ResponseContent.raw s) = Except.error Err.expatError := by
  constructor
  · intro root h
    rw [parse_request_value, if_pos hq]
    simp [minidom_parseString, getElementsByTagName,
      getElementsInNode_eq_nil sr.result_regex root h]
  · intro s
    rw [parse_request_value, if_pos hq]
    simp [minidom_parseString]

/-- C7 witness: the theorem applied to the concrete registry `srPlain`
(extraction rule `v`), a document without any `v` element, and a truncated
payload. -/
theorem c7_witness :
    parse_request_value srPlain (ResponseContent.xml docNoV) = Except.ok none
    ∧ parse_request_value srPlain (ResponseContent.raw "<gml:truncated")
      = Except.error Err.expatError :=
  ⟨(c7_absent_tag_empty_malformed_raises srPlain (Or.inl rfl)).1 docNoV rfl,
   (c7_absent_tag_empty_malformed_raises srPlain (Or.inl rfl)).2 "<gml:truncated"⟩

/-- C8: for the REST registry the extraction rule is never applied as a
regular expression: `parse_request_value` falls through its WFS/WMS guard
and yields `None` on the plain-text payload `temperature=25` (instead of
the first match group `25`), and a full REST resolution raises, since
`build_query_url` yields `None` for REST and `requests.get(None)` fails —
before any network call is made. -/
theorem c8_rest_regex_never_applied :
    parse_request_value srRest (ResponseContent.raw "temperature=25") = Except.ok none
    ∧ build_query_url convId srRest 10 20 4326 = none
    ∧ retrieve_context_value envRest 5 srRest 10 20 4326 stEmpty
      = (Except.error Err.missingSchema, stEmpty) :=
  ⟨by rfl, by rfl, by rfl⟩

/-- C6 (amended): for a WFS registry whose HTTP fetch succeeds, (i) when
no geometry can be parsed from the response, `retrieve_context_value`
returns `None` outright — the value is not extracted, nothing is returned
to the caller, no cache entry is stored, and no coverage region is
fabricated; (ii) when a geometry is parsed but carries no SRID, the
registry's configured SRID is assigned to it in the saved entry; (iii)
when the parsed geometry carries a non-zero SRID, it is kept unchanged. -/
theorem c6_wfs_geometry_handling (env : Env) (now : Nat)
    (sr : ContextServiceRegistry) (x y srid : Int) (st : State)
    (u : String) (content : ResponseContent)
    (hq : sr.query_type = QueryType.WFS)
    (hu : build_query_url env.convert_coordinate sr x y srid = some u)
    (hget : env.http_get u = Except.ok content) :
    (env.parse_gml_geometry content (gml_workspace_arg sr) = none →
        retrieve_context_value env now sr x y srid st
          = (Except.ok none, { st with networkCalls := st.networkCalls + 1 }))
    ∧ (∀ g v, env.parse_gml_geometry content (gml_workspace_arg sr) = some g →
        g.srid = none → parse_request_value sr content = Except.ok v →
        retrieve_context_value env now sr x y srid st
          = (Except.ok (some ((save_context_cache now sr v
                (some { g with srid := some sr.srid }) u
                { st with networkCalls := st.networkCalls + 1 }).1)),
             (save_context_cache now sr v
                (some { g with srid := some sr.srid }) u
                { st with networkCalls := st.networkCalls + 1 }).2))
    ∧ (∀ g v (s : Int), env.parse_gml_geometry content (gml_workspace_arg sr) = some g →
        g.srid = some s → s ≠ 0 → parse_request_value sr content = Except.ok v →
        retrieve_context_value env now sr x y srid st
          = (Except.ok (some ((save_context_cache now sr v (some g) u
                { st with networkCalls := st.networkCalls + 1 }).1)),
             (save_context_cache now sr v (some g) u
                { st with networkCalls := st.networkCalls + 1 }).2)) := by
  have hnw : ¬ sr.query_type = QueryType.WMS := by rw [hq]; intro h; cases h
  refine ⟨?_, ?_, ?_⟩
  · intro hgml
    rw [retrieve_context_value, if_neg hnw, hu]
    simp [hget, hgml]
  · intro g v hgml hsrid hv
    rw [retrieve_context_value, if_neg hnw, hu]
    simp [hget, hgml, hsrid, hv]
  · intro g v s hgml hsrid hs hv
    rw [retrieve_context_value, if_neg hnw, hu]
    simp [hget, hgml, hsrid, hs, hv]

/-- C6 counterexample: the WFS response `contentV` carries the extractable
value `42`, yet with no parseable geometry `retrieve_context_value`
returns `None` — the value is not returned to the caller and no cache
entry is stored. -/
theorem c6_counterexample :
    parse_request_value srPlain contentV = Except.ok (some "42")
    ∧ retrieve_context_value envNoGml 5 srPlain 10 20 4326 stEmpty
      = (Except.ok none, { caches := [], nextId := 0, networkCalls := 1 }) :=
  ⟨by rfl, by rfl⟩

/-- C6 witness: the amended theorem applied at the concrete registry
`srPlain`, once with a geometry-less response environment and once with a
parsed geometry carrying no SRID. -/
theorem c6_witness :
    retrieve_context_value envNoGml 5 srPlain 10 20 4326 stEmpty
      = (Except.ok none, { stEmpty with networkCalls := stEmpty.networkCalls + 1 })
    ∧ retrieve_context_value envGml 5 srPlain 10 20 4326 stEmpty
      = (Except.ok (some ((save_context_cache 5 srPlain (some "42")
            (some { gNoSrid with srid := some srPlain.srid }) uPlain
            { stEmpty with networkCalls := stEmpty.networkCalls + 1 }).1)),
         (save_context_cache 5 srPlain (some "42")
            (some { gNoSrid with srid := some srPlain.srid }) uPlain
            { stEmpty with networkCalls := stEmpty.networkCalls + 1 }).2) :=
  ⟨(c6_wfs_geometry_handling envNoGml 5 srPlain 10 20 4326 stEmpty uPlain contentV
      rfl rfl rfl).1 rfl,
   (c6_wfs_geometry_handling envGml 5 srPlain 10 20 4326 stEmpty uPlain contentV
      rfl rfl rfl).2.1 gNoSrid (some "42") rfl rfl rfl⟩

/-- A string is a substring of itself followed by anything. -/
theorem strIn_self_append (n t : String) : strIn n (n ++ t) :=
  ⟨[], t.data, by simp [String.data_append]⟩

/-- Substring occurrence is preserved by prepending. -/
theorem strIn_append_left (a : String) {n h : String} (hin : strIn n h) :
    strIn n (a ++ h) := by
  obtain ⟨s, t, e⟩ := hin
  exact ⟨a.data ++ s, t, by rw [String.data_append, ← e]; simp [List.append_assoc]⟩

/-- Substring occurrence is preserved by appending. -/
theorem strIn_append_right (b : String) {n h : String} (hin : strIn n h) :
    strIn n (h ++ b) := by
  obtain ⟨s, t, e⟩ := hin
  exact ⟨s, t ++ b.data, by rw [String.data_append, ← e]; simp [List.append_assoc]⟩

/-- The urlencoded WFS parameter dictionary, written with its concrete
literal chunks exposed. -/
theorem urlencode_wfs_parameters (sr : ContextServiceRegistry) :
    urlencode (wfs_parameters sr)
      = "SERVICE=WFS&REQUEST=GetFeature&VERSION="
          ++ (quote_plus sr.service_version
          ++ ("&TYPENAME=" ++ (quote_plus sr.layer_typename ++ "&OUTPUTFORMAT=GML3"))) := rfl

/-- The urlencoded parameter string carries the `SERVICE=WFS` term. -/
theorem urlencode_contains_service (sr : ContextServiceRegistry) (t : String) :
    strIn "SERVICE=WFS" (urlencode (wfs_parameters sr) ++ t) := by
  rw [urlencode_wfs_parameters]
  rw [show ("SERVICE=WFS&REQUEST=GetFeature&VERSION=" : String)
      = "SERVICE=WFS" ++ "&REQUEST=GetFeature&VERSION=" from rfl]
  simp only [String.append_assoc]
  exact strIn_self_append _ _

/-- The urlencoded parameter string carries the `REQUEST=GetFeature` term. -/
theorem urlencode_contains_request (sr : ContextServiceRegistry) (t : String) :
    strIn "REQUEST=GetFeature" (urlencode (wfs_parameters sr) ++ t) := by
  rw [urlencode_wfs_parameters]
  rw [show ("SERVICE=WFS&REQUEST=GetFeature&VERSION=" : String)
      = "SERVICE=WFS&" ++ ("REQUEST=GetFeature" ++ "&VERSION=") from rfl]
  simp only [String.append_assoc]
  exact strIn_append_left _ (strIn_self_append _ _)

/-- The urlencoded parameter string carries `VERSION=` followed by the
quoted service version. -/
theorem urlencode_contains_version (sr : ContextServiceRegistry) (t : String) :
    strIn ("VERSION=" ++ quote_plus sr.service_version)
      (urlencode (wfs_parameters sr) ++ t) := by
  rw [urlencode_wfs_parameters]
  rw [show ("SERVICE=WFS&REQUEST=GetFeature&VERSION=" : String)
      = "SERVICE=WFS&REQUEST=GetFeature&" ++ "VERSION=" from rfl]
  simp only [String.append_assoc]
  apply strIn_append_left
  rw [← String.append_assoc]
  exact strIn_self_append _ _

/-- The urlencoded parameter string carries `TYPENAME=` followed by the
quoted layer typename. -/
theorem urlencode_contains_typename (sr : ContextServiceRegistry) (t : String) :
    strIn ("TYPENAME=" ++ quote_plus sr.layer_typename)
      (urlencode (wfs_parameters sr) ++ t) := by
  rw [urlencode_wfs_parameters]
  rw [show ("&TYPENAME=" : String) = "&" ++ "TYPENAME=" from rfl]
  simp only [String.append_assoc]
  apply strIn_append_left
  apply strIn_append_left
  apply strIn_append_left
  rw [← String.append_assoc]
  exact strIn_self_append _ _

/-- The urlencoded parameter string carries the `OUTPUTFORMAT=GML3` term. -/
theorem urlencode_contains_outputformat (sr : ContextServiceRegistry) (t : String) :
    strIn "OUTPUTFORMAT=GML3" (urlencode (wfs_parameters sr) ++ t) := by
  rw [urlencode_wfs_parameters]
  rw [show ("&OUTPUTFORMAT=GML3" : String) = "&" ++ "OUTPUTFORMAT=GML3" from rfl]
  simp only [String.append_assoc]
  apply strIn_append_left
  apply strIn_append_left
  apply strIn_append_left
  apply strIn_append_left
  apply strIn_append_left
  exact strIn_self_append _ _

/-- What `build_query_url` produces for a WFS registry, as one equation. -/
theorem build_query_url_wfs_eq (conv : Int → Int → Int → Int → Int × Int)
    (sr : ContextServiceRegistry) (x y srid : Int)
    (hq : sr.query_type = QueryType.WFS) :
    build_query_url conv sr x y srid
      = some ((if str_has_char sr.url '?' then
                 sr.url ++ ("&" ++ urlencode (wfs_parameters sr))
               else sr.url ++ ("?" ++ urlencode (wfs_parameters sr)))
          ++ ((if str_has_char sr.layer_typename ':' then ""
               else "&SRSNAME=" ++ Int.repr sr.srid)
          ++ ("&BBOX=" ++ bbox_string (wfs_query_xy conv sr x y srid).1
                (wfs_query_xy conv sr x y srid).2))) := by
  rw [build_query_url, if_pos hq]
  cases hc : str_has_char sr.layer_typename ':' <;>
    simp [hc, String.append_assoc]

/-- C5 (amended): for every WFS registry, the produced URL's query string
carries `SERVICE=WFS`, `REQUEST=GetFeature`, `VERSION=` followed by the
URL-encoded (`quote_plus`) service version, `TYPENAME=` followed by the
URL-encoded layer typename, `OUTPUTFORMAT=GML3` and a `&BBOX=` term, and
`&SRSNAME=<srid>` is appended exactly when the layer typename carries no
`:` — when it does, the URL is just the base-with-parameters followed by
the `BBOX` term. -/
theorem c5_wfs_url_contents (conv : Int → Int → Int → Int → Int × Int)
    (sr : ContextServiceRegistry) (x y srid : Int) (u : String)
    (hq : sr.query_type = QueryType.WFS)
    (hu : build_query_url conv sr x y srid = some u) :
    strIn "SERVICE=WFS" u
    ∧ strIn "REQUEST=GetFeature" u
    ∧ strIn ("VERSION=" ++ quote_plus sr.service_version) u
    ∧ strIn ("TYPENAME=" ++ quote_plus sr.layer_typename) u
    ∧ strIn "OUTPUTFORMAT=GML3" u
    ∧ strIn "&BBOX=" u
    ∧ (str_has_char sr.layer_typename ':' = false →
        strIn ("&SRSNAME=" ++ Int.repr sr.srid) u)
    ∧ (str_has_char sr.layer_typename ':' = true →
        u = (if str_has_char sr.url '?' then
               sr.url ++ ("&" ++ urlencode (wfs_parameters sr))
             else sr.url ++ ("?" ++ urlencode (wfs_parameters sr)))
          ++ ("&BBOX=" ++ bbox_string (wfs_query_xy conv sr x y srid).1
                (wfs_query_xy conv sr x y srid).2)) := by
  rw [build_query_url_wfs_eq conv sr x y srid hq] at hu
  have hA := (Option.some.inj hu).symm
  subst hA
  cases hc : str_has_char sr.layer_typename ':' <;>
    cases hq2 : str_has_char sr.url '?' <;>
    simp only [hc, hq2, if_true, if_false, Bool.false_eq_true, Bool.true_eq_false,
      ite_true, ite_false, String.append_assoc]
  · refine ⟨?_, ?_, ?_, ?_, ?_, ?_, ?_, ?_⟩
    · exact strIn_append_left _ (strIn_append_left _ (urlencode_contains_service sr _))
    · exact strIn_append_left _ (strIn_append_left _ (urlencode_contains_request sr _))
    · exact strIn_append_left _ (strIn_append_left _ (urlencode_contains_version sr _))
    · exact strIn_append_left _ (strIn_append_left _ (urlencode_contains_typename sr _))
    · exact strIn_append_left _ (strIn_append_left _ (urlencode_contains_outputformat sr _))
    · exact strIn_append_left _ (strIn_append_left _ (strIn_append_left _
        (strIn_append_left _ (strIn_append_left _ (strIn_self_append _ _)))))
    · intro _
      apply strIn_append_left
      apply strIn_append_left
      apply strIn_append_left
      rw [← String.append_assoc]
      exact strIn_self_append _ _
    · exact fun h => h.elim
  · refine ⟨?_, ?_, ?_, ?_, ?_, ?_, ?_, ?_⟩
    · exact strIn_append_left _ (strIn_append_left _ (urlencode_contains_service sr _))
    · exact strIn_append_left _ (strIn_append_left _ (urlencode_contains_request sr _))
    · exact strIn_append_left _ (strIn_append_left _ (urlencode_contains_version sr _))
    · exact strIn_append_left _ (strIn_append_left _ (urlencode_contains_typename sr _))
    · exact strIn_append_left _ (strIn_append_left _ (urlencode_contains_outputformat sr _))
    · exact strIn_append_left _ (strIn_append_left _ (strIn_append_left _
        (strIn_append_left _ (strIn_append_left _ (strIn_self_append _ _)))))
    · intro _
      apply strIn_append_left
      apply strIn_append_left
      apply strIn_append_left
      rw [← String.append_assoc]
      exact strIn_self_append _ _
    · exact fun h => h.elim
  · refine ⟨?_, ?_, ?_, ?_, ?_, ?_, ?_, ?_⟩
    · exact strIn_append_left _ (strIn_append_left _ (urlencode_contains_service sr _))
    · exact strIn_append_left _ (strIn_append_left _ (urlencode_contains_request sr _))
    · exact strIn_append_left _ (strIn_append_left _ (urlencode_contains_version sr _))
    · exact strIn_append_left _ (strIn_append_left _ (urlencode_contains_typename sr _))
    · exact strIn_append_left _ (strIn_append_left _ (urlencode_contains_outputformat sr _))
    · exact strIn_append_left _ (strIn_append_left _ (strIn_append_left _
        (strIn_self_append _ _)))
    · exact fun h => h.elim
    · intro _
      simp [String.append_assoc]
  · refine ⟨?_, ?_, ?_, ?_, ?_, ?_, ?_, ?_⟩
    · exact strIn_append_left _ (strIn_append_left _ (urlencode_contains_service sr _))
    · exact strIn_append_left _ (strIn_append_left _ (urlencode_contains_request sr _))
    · exact strIn_append_left _ (strIn_append_left _ (urlencode_contains_version sr _))
    · exact strIn_append_left _ (strIn_append_left _ (urlencode_contains_typename sr _))
    · exact strIn_append_left _ (strIn_append_left _ (urlencode_contains_outputformat sr _))
    · exact strIn_append_left _ (strIn_append_left _ (strIn_append_left _
        (strIn_self_append _ _)))
    · exact fun h => h.elim
    · intro _
      simp [String.append_assoc]

/-- C5 counterexample: with layer typename `ns:layer` the produced URL
does not carry `TYPENAME=ns:layer` literally — Django's urlencoding
percent-escapes the colon, so the URL carries `TYPENAME=ns%3Alayer`
instead (while `SERVICE=WFS` does appear literally). -/
theorem c5_counterexample :
    ¬ strIn "TYPENAME=ns:layer" ((build_query_url convId srNs 10 20 4326).getD "")
    ∧ strIn "TYPENAME=ns%3Alayer" ((build_query_url convId srNs 10 20 4326).getD "")
    ∧ strIn "SERVICE=WFS" ((build_query_url convId srNs 10 20 4326).getD "") := by
  refine ⟨by decide, by decide, by decide⟩

/-- C5 witness: the amended theorem applied to the concrete registry
`srNs` at point `(10, 20)`. -/
theorem c5_witness :
    strIn "SERVICE=WFS" ((build_query_url convId srNs 10 20 4326).getD "")
    ∧ strIn "REQUEST=GetFeature" ((build_query_url convId srNs 10 20 4326).getD "")
    ∧ strIn ("VERSION=" ++ quote_plus srNs.service_version)
        ((build_query_url convId srNs 10 20 4326).getD "")
    ∧ strIn ("TYPENAME=" ++ quote_plus srNs.layer_typename)
        ((build_query_url convId srNs 10 20 4326).getD "")
    ∧ strIn "OUTPUTFORMAT=GML3" ((build_query_url convId srNs 10 20 4326).getD "")
    ∧ strIn "&BBOX=" ((build_query_url convId srNs 10 20 4326).getD "")
    ∧ (str_has_char srNs.layer_typename ':' = false →
        strIn ("&SRSNAME=" ++ Int.repr srNs.srid)
          ((build_query_url convId srNs 10 20 4326).getD ""))
    ∧ (str_has_char srNs.layer_typename ':' = true →
        (build_query_url convId srNs 10 20 4326).getD ""
          = (if str_has_char srNs.url '?' then
               srNs.url ++ ("&" ++ urlencode (wfs_parameters srNs))
             else srNs.url ++ ("?" ++ urlencode (wfs_parameters srNs)))
          ++ ("&BBOX=" ++ bbox_string (wfs_query_xy convId srNs 10 20 4326).1
                (wfs_query_xy convId srNs 10 20 4326).2)) :=
  c5_wfs_url_contents convId srNs 10 20 4326
    ((build_query_url convId srNs 10 20 4326).getD "") rfl rfl

/-- C9: for every WFS registry, the first appended parameter is joined to
the base URL with `?` when the base URL carries no `?`, and with `&` when
it already does. -/
theorem c9_first_parameter_separator (conv : Int → Int → Int → Int → Int × Int)
    (sr : ContextServiceRegistry) (x y srid : Int)
    (hq : sr.query_type = QueryType.WFS) :
    (str_has_char sr.url '?' = false →
      ∃ rest, build_query_url conv sr x y srid = some (sr.url ++ ("?" ++ rest)))
    ∧ (str_has_char sr.url '?' = true →
      ∃ rest, build_query_url conv sr x y srid = some (sr.url ++ ("&" ++ rest))) := by
  constructor <;> intro hq2 <;>
    exact ⟨urlencode (wfs_parameters sr)
        ++ ((if str_has_char sr.layer_typename ':' then ""
             else "&SRSNAME=" ++ Int.repr sr.srid)
        ++ ("&BBOX=" ++ bbox_string (wfs_query_xy conv sr x y srid).1
              (wfs_query_xy conv sr x y srid).2)),
      by rw [build_query_url_wfs_eq conv sr x y srid hq]
         simp [hq2, String.append_assoc]⟩

/-- C9 witness: the theorem applied to a base URL without `?` (`srNs`) and
one already carrying `?` (`srQm`). -/
theorem c9_witness :
    (∃ rest, build_query_url convId srNs 10 20 4326
      = some (srNs.url ++ ("?" ++ rest)))
    ∧ ∃ rest, build_query_url convId srQm 10 20 4326
      = some (srQm.url ++ ("&" ++ rest)) :=
  ⟨(c9_first_parameter_separator convId srNs 10 20 4326 rfl).1 rfl,
   (c9_first_parameter_separator convId srQm 10 20 4326 rfl).2 rfl⟩
